import Mathlib

/-!
Verification development for the HTTP transport adapter
(`src/unnamed/part_000`, class `HTTPTransportAdapter`).

The adapter carries correlated request/response envelopes over HTTP:
`send` validates and issues an outbound POST, `init` binds a port and
dispatches inbound envelopes through `handleHTTPRequest` and
`executeActionHandler`, and `sendResponse` injects a deferred response
for a previously registered `request_id`.  The development below is a
shallow embedding of that code: JavaScript objects become Lean
structures, the `Map` of pending resolvers together with the pending
promise of one exchange becomes an explicit state machine, and the
single-threaded event interleaving becomes a list of events folded over
the step function.
-/

namespace HTTPTransportAdapter

/-- JSON documents, as produced by JSON.stringify and consumed by
JSON.parse.  Objects are ordered association lists, which is how the
adapter's envelope literals are built. -/
inductive Json where
  | str (s : String)
  | num (n : Int)
  | bool (b : Bool)
  | null
  | arr (elems : List Json)
  | obj (fields : List (String × Json))
deriving Repr

/-- Request envelope `CorrelatedRequestDTO`:
`{action, correlation_id, request_id?, transport, data}`.  `request_id`
is optional (`none` models an absent property). -/
structure CorrelatedRequestDTO where
  action : String
  correlation_id : String
  request_id : Option String
  transport : String
  data : Json
deriving Repr

/-- Response envelope `CorrelatedResponseDTO`:
`{action, correlation_id, request_id?, data, error, status}` (the
`request_id` field is read by `sendResponse`, line 83). -/
structure CorrelatedResponseDTO where
  action : String
  correlation_id : String
  request_id : Option String
  data : Json
  error : String
  status : Nat
deriving Repr

/-- JavaScript truthiness of an optional string value (absent,
`undefined` and the empty string are falsy).  Used by the source's
`if (!data.request_id)` checks. -/
def jsTruthyStr : Option String → Bool
  | none => false
  | some s => !s.isEmpty

/-- JavaScript truthiness of an optional numeric value (absent,
`undefined` and `0` are falsy).  Used by `if (!this.port)` and
`if (!options['port'])`. -/
def jsTruthyNat : Option Nat → Bool
  | none => false
  | some n => n != 0

/-- Errors a handler or the dispatcher can throw, by the `instanceof`
classes the catch blocks test: `ZodError` (carrying the individual
issue messages), `BaseError` (carrying an explicit `code` and
`message`, the class of `BadRequestError` and `InternalServerError`),
any other `Error` (carrying only a message), or a thrown non-Error
value. -/
inductive JsError where
  | zodError (messages : List String)
  | baseError (code : Nat) (message : String)
  | plainError (message : String)
  | nonErrorValue
deriving Repr, DecidableEq

/-- Constructor of `rest-pkg`'s `BadRequestError` (HTTP 400). -/
def BadRequestError (message : String) : JsError :=
  .baseError 400 message

/-- Constructor of `rest-pkg`'s `InternalServerError` (HTTP 500). -/
def InternalServerError (message : String) : JsError :=
  .baseError 500 message

/-- Error classification of `executeActionHandler`'s catch block
(lines 196-208).  `status` starts at 200 and `errorMessage` at the
empty string; a `ZodError` yields 400 with the joined issue messages, a
`BaseError` yields its own code and message, any other `Error` keeps
only its message (status stays 200), and a non-Error value yields 500
with a generic message.  The result is the final `(status,
errorMessage)` pair. -/
def classifyError : JsError → Nat × String
  | .zodError messages => (400, String.intercalate ", " messages)
  | .baseError code message => (code, message)
  | .plainError message => (200, message)
  | .nonErrorValue => (500, "Internal Server Error")

/-- Serialization of a request envelope to its JSON document, as
`JSON.stringify` lays out the object's own enumerable properties; an
absent `request_id` is omitted, exactly as `stringify` omits an
`undefined` property. -/
def encodeRequestDTO (r : CorrelatedRequestDTO) : Json :=
  .obj (("action", .str r.action) ::
        ("correlation_id", .str r.correlation_id) ::
        ((match r.request_id with
          | some rid => [("request_id", Json.str rid)]
          | none => []) ++
         [("transport", .str r.transport), ("data", r.data)]))

/-- Serialization of a response envelope to its JSON document
(the shape built at lines 213-219, plus the optional `request_id`
carried by injected responses). -/
def encodeResponseDTO (r : CorrelatedResponseDTO) : Json :=
  .obj (("action", .str r.action) ::
        ("correlation_id", .str r.correlation_id) ::
        ((match r.request_id with
          | some rid => [("request_id", Json.str rid)]
          | none => []) ++
         [("data", r.data), ("error", .str r.error),
          ("status", .num (Int.ofNat r.status))]))

/-- Property access on a parsed JSON document (the receiver calls
`JSON.parse` and then reads the DTO's named fields; a missing property
reads as `undefined`, here `none`). -/
def getField (j : Json) (key : String) : Option Json :=
  match j with
  | .obj fields => fields.lookup key
  | _ => none

/-- Reads a field that the adapter uses as a string. -/
def getStringField (j : Json) (key : String) : Option String :=
  match getField j key with
  | some (.str s) => some s
  | _ => none

/-- Reads a field that the adapter uses as a number. -/
def getNatField (j : Json) (key : String) : Option Nat :=
  match getField j key with
  | some (.num n) => some n.toNat
  | _ => none

/-- Parsing a wire body into a request envelope: `JSON.parse` followed
by reading the `CorrelatedRequestDTO` fields the adapter accesses. -/
def decodeRequestDTO (j : Json) : Option CorrelatedRequestDTO :=
  match getStringField j "action", getStringField j "correlation_id",
        getStringField j "transport", getField j "data" with
  | some a, some c, some t, some d =>
      some { action := a, correlation_id := c,
             request_id := getStringField j "request_id",
             transport := t, data := d }
  | _, _, _, _ => none

/-- Parsing a wire body into a response envelope: `JSON.parse` followed
by reading the `CorrelatedResponseDTO` fields the adapter accesses
(line 123 resolves the outbound call with this parse). -/
def decodeResponseDTO (j : Json) : Option CorrelatedResponseDTO :=
  match getStringField j "action", getStringField j "correlation_id",
        getField j "data", getStringField j "error",
        getNatField j "status" with
  | some a, some c, some d, some e, some s =>
      some { action := a, correlation_id := c,
             request_id := getStringField j "request_id",
             data := d, error := e, status := s }
  | _, _, _, _, _ => none

/-- Claim C9: for every request or response envelope, serializing it to
its wire form and then parsing the result yields an envelope with every
field preserved exactly (lossless round trip). -/
theorem serialize_parse_roundtrip :
    (∀ r : CorrelatedRequestDTO, decodeRequestDTO (encodeRequestDTO r) = some r) ∧
    (∀ r : CorrelatedResponseDTO, decodeResponseDTO (encodeResponseDTO r) = some r) := by
  constructor
  · rintro ⟨a, c, rid, t, d⟩
    cases rid <;> rfl
  · rintro ⟨a, c, rid, d, e, s⟩
    cases rid <;> rfl

/-- The fixed wire path (line 9). -/
def HTTP_TRANSPORT_ENDPOINT : String := "/http-transport"

/-- Destination coordinates read from the `options` record by `send`
(lines 75 and 101-103): `options['host']` and `options['port']`, each
possibly absent. -/
structure SendOptions where
  host : Option String
  port : Option Nat
deriving Repr

/-- An issued outbound call: the `http.request` options built at lines
101-110 together with the serialized envelope written on the wire.
Producing a value of this type models the wire attempt actually
happening. -/
structure HTTPRequestAttempt where
  hostname : String
  port : Nat
  path : String
  method : String
  body : Json
deriving Repr

/-- Embedding of `sendHTTPRequest` (lines 97-138) up to its wire
effect: the request options and serialized body it issues. -/
def sendHTTPRequest (data : CorrelatedRequestDTO) (options : SendOptions) :
    HTTPRequestAttempt :=
  { hostname := options.host.getD ""
    port := options.port.getD 0
    path := HTTP_TRANSPORT_ENDPOINT
    method := "POST"
    body := encodeRequestDTO data }

/-- Embedding of `send` (lines 65-80).  `sendableActions` is
`transportService.getSendableActions()` and `freshId` the `uuidv4()`
value.  The first component of the result is the caller's envelope
after the call (the source mutates `data.request_id` in place, line
67); the second is either the thrown error or the issued wire call. -/
def send (sendableActions : List String) (freshId : String)
    (data : CorrelatedRequestDTO) (options : SendOptions) :
    CorrelatedRequestDTO × Except JsError HTTPRequestAttempt :=
  let data := if jsTruthyStr data.request_id then data
              else { data with request_id := some freshId }
  (data,
    if !sendableActions.contains data.action then
      .error (BadRequestError ("Invalid action provided: " ++ data.action))
    else if !(jsTruthyStr options.host) || !(jsTruthyNat options.port) then
      .error (BadRequestError "Host and/or port missing in transport options")
    else
      .ok (sendHTTPRequest data options))

/-- Embedding of `init` (lines 20-50) up to its binding effect.
`actionsToConsume` is `transportService.getReceivableActions()` as an
association list from action name to whether the stored handler value
is truthy (bound).  The result is the thrown error, or `none` when
initialization is a no-op, or `some port` when the listener is bound on
that port. -/
def init (actionsToConsume : List (String × Bool)) (port : Nat) :
    Except JsError (Option Nat) :=
  if actionsToConsume.isEmpty then
    .ok none
  else if port = 0 then
    .error (InternalServerError
      "HTTP transport needs a port in order to consume (receive) actions")
  else
    .ok (some port)

/-- Outcome of `handleHTTPRequest`'s validation (lines 140-153): either
a rejection caught at lines 154-165 (carrying the wire status and error
message derived from the thrown `BaseError`), or dispatch of the
envelope to its bound handler via `executeActionHandler`. -/
inductive DispatchResult where
  | reject (wireStatus : Nat) (errorMessage : String)
  | dispatchTo (data : CorrelatedRequestDTO)
deriving Repr

/-- Embedding of `handleHTTPRequest`'s validation and catch logic
(lines 140-166).  A null envelope or an action whose key is not in
`actionsToConsume` throws `BadRequestError` (caught as wire 400); a
present key whose handler value is falsy throws `InternalServerError`
(caught as wire 500); otherwise the handler is invoked.  A null
envelope interpolates as the string `undefined`. -/
def handleHTTPRequest (actionsToConsume : List (String × Bool))
    (data : Option CorrelatedRequestDTO) : DispatchResult :=
  match data with
  | none => .reject 400 "Invalid action provided: undefined"
  | some d =>
      match actionsToConsume.lookup d.action with
      | none => .reject 400 ("Invalid action provided: " ++ d.action)
      | some bound =>
          if bound then .dispatchTo d
          else .reject 500 ("Handler not defined for action: " ++ d.action)

/-- Body written on the wire: either a full response envelope or the
minimal bare error object of the rejection path (line 164). -/
inductive WireBody where
  | envelope (r : CorrelatedResponseDTO)
  | bare (error : String)
deriving Repr

/-- A completed wire reply: the status passed to `res.writeHead` plus
the serialized body passed to `res.end`. -/
structure WireReply where
  status : Nat
  body : WireBody
deriving Repr

/-- The fallback response envelope built in `executeActionHandler`'s
finally block when the awaited promise rejected (lines 212-220). -/
def fallbackResponse (data : CorrelatedRequestDTO) (status : Nat)
    (errorMessage : String) : CorrelatedResponseDTO :=
  { action := data.action
    correlation_id := data.correlation_id
    request_id := none
    data := .obj []
    error := errorMessage
    status := status }

/-- Embedding of `executeActionHandler`'s reply emission (lines
196-222), as a function of how the awaited promise settled: the wire
status is the literal 200 of line 210, and the body is the resolved
envelope, or on rejection the fallback envelope carrying the
classification of the error. -/
def executeActionHandler (data : CorrelatedRequestDTO)
    (settled : Except JsError CorrelatedResponseDTO) : WireReply :=
  { status := 200
    body := .envelope
      (match settled with
       | .ok r => r
       | .error e =>
           fallbackResponse data (classifyError e).1 (classifyError e).2) }

/-- The full inbound reply for one request: validation, then either the
rejection body or the dispatched exchange's reply. -/
def handleWire (actionsToConsume : List (String × Bool))
    (data : Option CorrelatedRequestDTO)
    (settled : Except JsError CorrelatedResponseDTO) : WireReply :=
  match handleHTTPRequest actionsToConsume data with
  | .reject s msg => { status := s, body := .bare msg }
  | .dispatchTo d => executeActionHandler d settled

/-- State of one dispatched exchange: the promise built at lines
174-195 together with the adapter state it touches.  `data` is the
request envelope (never mutated here); `reg` says whether
`pendingResponses` currently holds the entry this exchange registered
under `data.request_id`; `timerArmed` says whether the 30-second timer
is still pending (`clearTimeout` not yet called, timer not yet fired);
`settled` is the promise's settlement, set at most once; `resolverRuns`
counts invocations of the resolver closure stored at lines 180-183. -/
structure Exchange where
  data : CorrelatedRequestDTO
  reg : Bool
  timerArmed : Bool
  settled : Option (Except JsError CorrelatedResponseDTO)
  resolverRuns : Nat
deriving Repr

/-- The promise executor's synchronous prefix (lines 175-184): the
timer is started, and the resolver is registered under
`data.request_id` only when that field is truthy. -/
def initExchange (data : CorrelatedRequestDTO) : Exchange :=
  { data := data
    reg := jsTruthyStr data.request_id
    timerArmed := true
    settled := none
    resolverRuns := 0 }

/-- Promise settlement semantics: a later `resolve`/`reject` on a
settled promise is a no-op. -/
def settleOnce (s : Option (Except JsError CorrelatedResponseDTO))
    (v : Except JsError CorrelatedResponseDTO) :
    Option (Except JsError CorrelatedResponseDTO) :=
  match s with
  | some x => some x
  | none => some v

/-- Embedding of `sendResponse` (lines 82-91) acting on the exchange:
when the injected envelope's `request_id` is truthy and the registry
holds that entry, the stored resolver runs (`clearTimeout` then
`resolve cast`) and the entry is deleted; otherwise the call is a
silent no-op. -/
def sendResponse (st : Exchange) (msg : CorrelatedResponseDTO) : Exchange :=
  if jsTruthyStr msg.request_id = true ∧ st.reg = true ∧
     msg.request_id = st.data.request_id then
    { st with
      timerArmed := false
      settled := settleOnce st.settled (.ok msg)
      reg := false
      resolverRuns := st.resolverRuns + 1 }
  else st

/-- The timer callback (lines 175-177): if the timer is still armed it
fires once, rejecting the promise with the timeout
`InternalServerError`; it does not touch `pendingResponses`. -/
def timerFire (st : Exchange) : Exchange :=
  if st.timerArmed then
    { st with
      timerArmed := false
      settled := settleOnce st.settled (.error (InternalServerError
        ("Timeout waiting for HTTP response on " ++ st.data.action))) }
  else st

/-- The handler-rejection path (lines 186-194): `clearTimeout`, then
the registry entry is deleted when `data.request_id` is truthy, then
the promise is rejected with the handler's error. -/
def handlerRejectStep (st : Exchange) (e : JsError) : Exchange :=
  { st with
    timerArmed := false
    reg := if jsTruthyStr st.data.request_id then false else st.reg
    settled := settleOnce st.settled (.error e) }

/-- Events that can reach one exchange under the single-threaded
scheduler: an external `sendResponse` injection, the timer firing, the
handler's promise rejecting with an error, or the handler's promise
fulfilling normally (which, the handler returning `Promise<void>`,
settles nothing). -/
inductive Ev where
  | inject (msg : CorrelatedResponseDTO)
  | timer
  | handlerError (e : JsError)
  | handlerDone

/-- One scheduler step of the exchange. -/
def stepExch (st : Exchange) : Ev → Exchange
  | .inject msg => sendResponse st msg
  | .timer => timerFire st
  | .handlerError e => handlerRejectStep st e
  | .handlerDone => st

/-- A finite interleaving of events applied in order. -/
def runExch (st : Exchange) (trace : List Ev) : Exchange :=
  trace.foldl stepExch st

/-! Shared lemmas about the exchange machine. -/

/-- No event changes the request envelope of an exchange. -/
theorem stepExch_data (st : Exchange) (e : Ev) : (stepExch st e).data = st.data := by
  cases e with
  | inject msg =>
      simp only [stepExch, sendResponse]
      split <;> rfl
  | timer =>
      simp only [stepExch, timerFire]
      split <;> rfl
  | handlerError e => rfl
  | handlerDone => rfl

/-- No trace changes the request envelope of an exchange. -/
theorem runExch_data (st : Exchange) (trace : List Ev) :
    (runExch st trace).data = st.data := by
  induction trace generalizing st with
  | nil => rfl
  | cons e tr ih =>
      simp only [runExch, List.foldl_cons]
      exact (ih (stepExch st e)).trans (stepExch_data st e)

/-- A settled promise stays settled with the same value: `resolve` and
`reject` on a settled promise are no-ops. -/
theorem stepExch_settled_frozen (st : Exchange) (e : Ev)
    (x : Except JsError CorrelatedResponseDTO) (h : st.settled = some x) :
    (stepExch st e).settled = some x := by
  cases e with
  | inject msg =>
      simp only [stepExch, sendResponse]
      split <;> simp [settleOnce, h]
  | timer =>
      simp only [stepExch, timerFire]
      split <;> simp [settleOnce, h]
  | handlerError e => simp [stepExch, handlerRejectStep, settleOnce, h]
  | handlerDone => exact h

/-- A settled promise stays settled with the same value along any
trace. -/
theorem runExch_settled_frozen (trace : List Ev) (st : Exchange)
    (x : Except JsError CorrelatedResponseDTO) (h : st.settled = some x) :
    (runExch st trace).settled = some x := by
  induction trace generalizing st with
  | nil => exact h
  | cons e tr ih =>
      simp only [runExch, List.foldl_cons]
      exact ih (stepExch st e) (stepExch_settled_frozen st e x h)

/-- Once the registry entry is gone it never comes back, and the
resolver can no longer run. -/
theorem stepExch_reg_off (st : Exchange) (e : Ev) (h : st.reg = false) :
    (stepExch st e).reg = false ∧ (stepExch st e).resolverRuns = st.resolverRuns := by
  cases e with
  | inject msg =>
      simp only [stepExch, sendResponse]
      split
      · rename_i hc
        simp [h] at hc
      · exact ⟨h, rfl⟩
  | timer =>
      simp only [stepExch, timerFire]
      split <;> exact ⟨h, rfl⟩
  | handlerError e =>
      refine ⟨?_, rfl⟩
      simp only [stepExch, handlerRejectStep]
      split <;> simp [h]
  | handlerDone => exact ⟨h, rfl⟩

/-- Along any trace from a state without the registry entry, the entry
stays absent and the resolver-invocation count is unchanged. -/
theorem runExch_reg_off (trace : List Ev) (st : Exchange) (h : st.reg = false) :
    (runExch st trace).reg = false ∧
    (runExch st trace).resolverRuns = st.resolverRuns := by
  induction trace generalizing st with
  | nil => exact ⟨h, rfl⟩
  | cons e tr ih =>
      simp only [runExch, List.foldl_cons]
      obtain ⟨h1, h2⟩ := stepExch_reg_off st e h
      obtain ⟨h3, h4⟩ := ih (stepExch st e) h1
      exact ⟨h3, h4.trans h2⟩

/-- Events never create a registry entry: if the entry is present after
a step, it was present before. -/
theorem stepExch_reg_mono (st : Exchange) (e : Ev)
    (h : (stepExch st e).reg = true) : st.reg = true := by
  by_contra hfalse
  have hf : st.reg = false := by
    cases hr : st.reg
    · rfl
    · exact absurd hr hfalse
  rw [(stepExch_reg_off st e hf).1] at h
  exact Bool.false_ne_true h

/-- Traces never create a registry entry. -/
theorem runExch_reg_mono (trace : List Ev) (st : Exchange)
    (h : (runExch st trace).reg = true) : st.reg = true := by
  induction trace generalizing st with
  | nil => exact h
  | cons e tr ih =>
      simp only [runExch, List.foldl_cons] at h
      exact stepExch_reg_mono st e (ih (stepExch st e) h)

/-- An exchange reachable from `initExchange` holds its registry entry
only when the request carried a truthy `request_id` (the entry is
created only under `if (data.request_id)`, line 179). -/
theorem runExch_reg_truthy (d : CorrelatedRequestDTO) (trace : List Ev)
    (h : (runExch (initExchange d) trace).reg = true) :
    jsTruthyStr d.request_id = true := by
  have h0 : (initExchange d).reg = true := runExch_reg_mono trace _ h
  simpa [initExchange] using h0

/-! Claim theorems. -/

/-- Claim C1: after the dispatcher registers a resolver for a truthy
request id, an injection carrying that id runs the resolver exactly
once and removes the entry before `sendResponse` returns; a second
injection with the same id, and any injection whose id is unregistered
or absent, is a silent no-op leaving the state unchanged; the injection
cancels the timer and the injected envelope becomes the exchange's
settled outcome, which every later event (including a late handler
completion or rejection) leaves untouched, the resolver never running
again. -/
theorem register_inject_once (d : CorrelatedRequestDTO)
    (m : CorrelatedResponseDTO) (tr : List Ev)
    (hid : jsTruthyStr d.request_id = true)
    (hm : m.request_id = d.request_id) :
    (stepExch (initExchange d) (.inject m)).resolverRuns = 1 ∧
    (stepExch (initExchange d) (.inject m)).reg = false ∧
    (stepExch (initExchange d) (.inject m)).timerArmed = false ∧
    (stepExch (initExchange d) (.inject m)).settled = some (.ok m) ∧
    stepExch (stepExch (initExchange d) (.inject m)) (.inject m) =
      stepExch (initExchange d) (.inject m) ∧
    (∀ (st : Exchange) (m2 : CorrelatedResponseDTO),
        ¬(jsTruthyStr m2.request_id = true ∧ st.reg = true ∧
          m2.request_id = st.data.request_id) →
        stepExch st (.inject m2) = st) ∧
    (runExch (stepExch (initExchange d) (.inject m)) tr).settled =
      some (.ok m) ∧
    (runExch (stepExch (initExchange d) (.inject m)) tr).resolverRuns = 1 := by
  have hnoop : ∀ (st : Exchange) (m2 : CorrelatedResponseDTO),
      ¬(jsTruthyStr m2.request_id = true ∧ st.reg = true ∧
        m2.request_id = st.data.request_id) →
      stepExch st (.inject m2) = st := by
    intro st m2 hc
    simp only [stepExch, sendResponse]
    rw [if_neg hc]
  have hs1 : stepExch (initExchange d) (.inject m) =
      ⟨d, false, false, some (.ok m), 1⟩ := by
    simp only [stepExch, sendResponse]
    rw [if_pos]
    · rfl
    · refine ⟨?_, ?_, ?_⟩
      · rw [hm]
        exact hid
      · exact hid
      · exact hm
  rw [hs1]
  refine ⟨rfl, rfl, rfl, rfl, ?_, hnoop, ?_, ?_⟩
  · exact hnoop _ m (by simp)
  · exact runExch_settled_frozen tr _ (.ok m) rfl
  · exact (runExch_reg_off tr _ rfl).2

/-- Claim C2: when the timer of a not-yet-settled exchange fires, the
promise settles with the timeout error; that settlement is unique (no
later event changes it); and the timer firing leaves the registry entry
in place — for every exchange state, the timer and a normal handler
completion never change `reg`, so entries shrink only through
resolution, never through timeout expiry. -/
theorem timeout_settles_once (st : Exchange) (tr : List Ev)
    (harm : st.timerArmed = true) (hnone : st.settled = none) :
    (stepExch st .timer).settled = some (.error (InternalServerError
      ("Timeout waiting for HTTP response on " ++ st.data.action))) ∧
    (runExch (stepExch st .timer) tr).settled =
      some (.error (InternalServerError
        ("Timeout waiting for HTTP response on " ++ st.data.action))) ∧
    (stepExch st .timer).reg = st.reg ∧
    (∀ u : Exchange, (stepExch u .timer).reg = u.reg) ∧
    (∀ u : Exchange, (stepExch u .handlerDone).reg = u.reg) := by
  have hreg : ∀ u : Exchange, (stepExch u .timer).reg = u.reg := by
    intro u
    simp only [stepExch, timerFire]
    split <;> rfl
  have hfire : stepExch st .timer =
      { st with
        timerArmed := false
        settled := some (.error (InternalServerError
          ("Timeout waiting for HTTP response on " ++ st.data.action))) } := by
    simp only [stepExch, timerFire]
    rw [if_pos harm, hnone]
    rfl
  refine ⟨?_, ?_, hreg st, hreg, fun u => rfl⟩
  · rw [hfire]
  · exact runExch_settled_frozen tr _ _ (by rw [hfire])

/-- Claim C3: when the handler's invocation rejects while the exchange
is not yet settled (here in any state the dispatcher can reach from
registration), the timer is cancelled, the registry entry — created
only for a truthy request id — is gone, and the exchange's outcome is
exactly that error. -/
theorem handler_error_path (d : CorrelatedRequestDTO) (tr : List Ev)
    (e : JsError)
    (h : (runExch (initExchange d) tr).settled = none) :
    (stepExch (runExch (initExchange d) tr) (.handlerError e)).timerArmed
      = false ∧
    (stepExch (runExch (initExchange d) tr) (.handlerError e)).reg = false ∧
    (stepExch (runExch (initExchange d) tr) (.handlerError e)).settled
      = some (.error e) := by
  refine ⟨rfl, ?_, ?_⟩
  · simp only [stepExch, handlerRejectStep]
    split
    · rfl
    · rename_i hb
      rw [runExch_data] at hb
      cases hr : (runExch (initExchange d) tr).reg
      · rfl
      · exact absurd (runExch_reg_truthy d tr hr) hb
  · simp only [stepExch, handlerRejectStep, h]
    rfl

/-- Claim C4: every request that reaches handler dispatch (non-null
envelope, receivable action, bound handler) is answered with wire
status 200 whatever the exchange's logical outcome, and the body is a
full envelope; only the two pre-dispatch rejections produce a non-200
wire status, each with a minimal bare error body and no envelope. -/
theorem dispatched_wire_status_200 (actions : List (String × Bool))
    (d : CorrelatedRequestDTO)
    (settled : Except JsError CorrelatedResponseDTO) :
    (actions.lookup d.action = some true →
      handleWire actions (some d) settled = executeActionHandler d settled ∧
      (handleWire actions (some d) settled).status = 200) ∧
    handleWire actions none settled =
      { status := 400, body := .bare "Invalid action provided: undefined" } ∧
    (actions.lookup d.action = none →
      handleWire actions (some d) settled =
        { status := 400,
          body := .bare ("Invalid action provided: " ++ d.action) }) ∧
    (actions.lookup d.action = some false →
      handleWire actions (some d) settled =
        { status := 500,
          body := .bare ("Handler not defined for action: " ++ d.action) }) := by
  refine ⟨?_, rfl, ?_, ?_⟩
  · intro h
    simp [handleWire, handleHTTPRequest, h, executeActionHandler]
  · intro h
    simp [handleWire, handleHTTPRequest, h]
  · intro h
    simp [handleWire, handleHTTPRequest, h]

/-- Claim C5: the catch block of `executeActionHandler` classifies in
order: a Zod error yields logical status 400 with all field messages
joined, a `BaseError` yields its own code and message, any other error
keeps its message; and the fallback envelope always carries the
request's `action` and `correlation_id`, an empty `data` object, the
computed error message (empty string standing for no error) and the
computed status — the emitted reply on a rejection carrying exactly
that envelope. -/
theorem error_classification :
    (∀ messages, classifyError (.zodError messages) =
        (400, String.intercalate ", " messages)) ∧
    (∀ code message, classifyError (.baseError code message) = (code, message)) ∧
    (∀ message, (classifyError (.plainError message)).2 = message) ∧
    (∀ (d : CorrelatedRequestDTO) (status : Nat) (msg : String),
        (fallbackResponse d status msg).action = d.action ∧
        (fallbackResponse d status msg).correlation_id = d.correlation_id ∧
        (fallbackResponse d status msg).data = .obj [] ∧
        (fallbackResponse d status msg).error = msg ∧
        (fallbackResponse d status msg).status = status) ∧
    (∀ (d : CorrelatedRequestDTO) (e : JsError),
        executeActionHandler d (.error e) =
          { status := 200,
            body := .envelope (fallbackResponse d (classifyError e).1
              (classifyError e).2) }) :=
  ⟨fun _ => rfl, fun _ _ => rfl, fun _ => rfl,
   fun _ _ _ => ⟨rfl, rfl, rfl, rfl, rfl⟩, fun _ _ => rfl⟩

/-- Claim C6: a null envelope or an action outside the receivable set
is rejected with wire status 400 and an error message naming the
offending action (`undefined` for a null envelope); a receivable action
whose handler value is unbound is rejected with wire status 500; and in
each of these cases no handler is dispatched. -/
theorem dispatch_rejections (actions : List (String × Bool))
    (d : CorrelatedRequestDTO) :
    handleHTTPRequest actions none =
      .reject 400 "Invalid action provided: undefined" ∧
    (actions.lookup d.action = none →
      handleHTTPRequest actions (some d) =
        .reject 400 ("Invalid action provided: " ++ d.action)) ∧
    (actions.lookup d.action = some false →
      handleHTTPRequest actions (some d) =
        .reject 500 ("Handler not defined for action: " ++ d.action)) ∧
    (∀ d2, handleHTTPRequest actions none ≠ .dispatchTo d2) ∧
    (actions.lookup d.action ≠ some true →
      ∀ d2, handleHTTPRequest actions (some d) ≠ .dispatchTo d2) := by
  refine ⟨rfl, ?_, ?_, ?_, ?_⟩
  · intro h
    simp [handleHTTPRequest, h]
  · intro h
    simp [handleHTTPRequest, h]
  · intro d2
    simp [handleHTTPRequest]
  · intro h d2
    simp only [handleHTTPRequest]
    cases hl : actions.lookup d.action with
    | none => simp
    | some bound =>
        cases bound
        · simp
        · exact absurd hl h

/-- The first component returned by `send` is the caller's envelope
after the in-place `request_id` mutation of lines 66-68. -/
theorem send_fst (sendableActions : List String) (freshId : String)
    (d : CorrelatedRequestDTO) (options : SendOptions) :
    (send sendableActions freshId d options).1 =
      if jsTruthyStr d.request_id then d
      else { d with request_id := some freshId } := rfl

/-- The envelope mutation never changes the action field. -/
theorem send_fst_action (sendableActions : List String) (freshId : String)
    (d : CorrelatedRequestDTO) (options : SendOptions) :
    (send sendableActions freshId d options).1.action = d.action := by
  rw [send_fst]
  split <;> rfl

/-- Whenever the action is unsendable or the destination host or port
is missing, `send` throws a `BadRequestError` and issues no wire
call. -/
theorem send_rejects (sendableActions : List String) (freshId : String)
    (d : CorrelatedRequestDTO) (options : SendOptions)
    (h : sendableActions.contains d.action = false ∨
         jsTruthyStr options.host = false ∨ jsTruthyNat options.port = false) :
    ∃ msg, (send sendableActions freshId d options).2 =
      .error (BadRequestError msg) := by
  have hact : (if jsTruthyStr d.request_id then d
      else { d with request_id := some freshId }).action = d.action := by
    split <;> rfl
  cases hc : sendableActions.contains d.action with
  | false =>
      refine ⟨"Invalid action provided: " ++ d.action, ?_⟩
      simp only [send]
      rw [hact, hc]
      rfl
  | true =>
      refine ⟨"Host and/or port missing in transport options", ?_⟩
      simp only [send]
      rw [hact, hc]
      rcases h with hc2 | hh | hp
      · rw [hc] at hc2
        exact Bool.noConfusion hc2
      · rw [hh]
        rfl
      · rw [hp]
        simp

/-- Claim C7: `send` fills in a fresh `request_id` when the envelope
has none, and whenever the action is outside the sendable set or the
destination host or port is missing from the options it rejects with a
client error (`BadRequestError`, HTTP 400) without issuing any wire
call. -/
theorem send_validation (sendableActions : List String) (freshId : String)
    (d : CorrelatedRequestDTO) (options : SendOptions) :
    (d.request_id = none →
      (send sendableActions freshId d options).1.request_id = some freshId) ∧
    (sendableActions.contains d.action = false ∨
     jsTruthyStr options.host = false ∨ jsTruthyNat options.port = false →
      ∃ msg, (send sendableActions freshId d options).2 =
        .error (BadRequestError msg)) := by
  refine ⟨?_, send_rejects sendableActions freshId d options⟩
  intro h
  rw [send_fst]
  simp [jsTruthyStr, h]

/-- Claim C8: `init` binds the configured port exactly when a
receivable action exists: with no receivable actions it is a no-op
binding nothing (a zero port being then valid), and with receivable
actions but a zero (absent) port it throws the fatal configuration
error, binding nothing. -/
theorem init_port_binding (actions : List (String × Bool)) (port : Nat) :
    (actions = [] → init actions port = .ok none) ∧
    (actions ≠ [] → port = 0 →
      init actions port = .error (InternalServerError
        "HTTP transport needs a port in order to consume (receive) actions")) ∧
    (actions ≠ [] → port ≠ 0 → init actions port = .ok (some port)) := by
  refine ⟨?_, ?_, ?_⟩
  · intro h
    subst h
    rfl
  · intro h hp
    subst hp
    cases actions with
    | nil => exact absurd rfl h
    | cons a tl => rfl
  · intro h hp
    cases actions with
    | nil => exact absurd rfl h
    | cons a tl => simp [init, hp]

/-- Claim C10: `send` mutates its input envelope before any
validation — with no `request_id` on the input, the fresh identifier is
written into it first, so even a rejecting `send` (unsendable action or
missing host/port) leaves the caller's envelope with `request_id` set
rather than unchanged. -/
theorem send_mutates_before_validation (sendableActions : List String)
    (freshId : String) (d : CorrelatedRequestDTO) (options : SendOptions)
    (h1 : d.request_id = none)
    (h2 : sendableActions.contains d.action = false ∨
          jsTruthyStr options.host = false ∨ jsTruthyNat options.port = false) :
    (send sendableActions freshId d options).1 =
      { d with request_id := some freshId } ∧
    (send sendableActions freshId d options).1.request_id = some freshId ∧
    ∃ msg, (send sendableActions freshId d options).2 =
      .error (BadRequestError msg) := by
  have hfst : (send sendableActions freshId d options).1 =
      { d with request_id := some freshId } := by
    rw [send_fst]
    simp [jsTruthyStr, h1]
  exact ⟨hfst, by rw [hfst], send_rejects sendableActions freshId d options h2⟩

/-! Concrete example values used by the witnesses below. -/

/-- A request envelope for the receivable action `ping`, carrying a
truthy request id. -/
def exampleRequest : CorrelatedRequestDTO :=
  { action := "ping", correlation_id := "c1", request_id := some "r1",
    transport := "http", data := .obj [] }

/-- A response envelope injected for the same request id. -/
def exampleResponse : CorrelatedResponseDTO :=
  { action := "ping", correlation_id := "c1", request_id := some "r1",
    data := .obj [], error := "", status := 200 }

/-- A receivable-action table: `ping` bound, `dead` present but its
handler value falsy. -/
def exampleActions : List (String × Bool) := [("ping", true), ("dead", false)]

/-- A request for an action missing from the receivable table. -/
def unknownRequest : CorrelatedRequestDTO :=
  { exampleRequest with action := "nope" }

/-- A request for the receivable-but-unbound action. -/
def deadRequest : CorrelatedRequestDTO :=
  { exampleRequest with action := "dead" }

/-- A request envelope with no `request_id`. -/
def noIdRequest : CorrelatedRequestDTO :=
  { exampleRequest with request_id := none }

/-- A sendable set that does not contain `ping`. -/
def exampleSendable : List String := ["pong"]

/-- Destination options with both coordinates present. -/
def exampleOptions : SendOptions := { host := some "localhost", port := some 8080 }

/-- A settled-by-rejection exchange outcome. -/
def exampleSettled : Except JsError CorrelatedResponseDTO :=
  .error (.plainError "boom")

/-- Witness for claim C1 at concrete inputs. -/
theorem register_inject_once_witness :
    jsTruthyStr exampleRequest.request_id = true ∧
    exampleResponse.request_id = exampleRequest.request_id ∧
    ((stepExch (initExchange exampleRequest) (.inject exampleResponse)).resolverRuns = 1 ∧
     (stepExch (initExchange exampleRequest) (.inject exampleResponse)).reg = false ∧
     (stepExch (initExchange exampleRequest) (.inject exampleResponse)).timerArmed = false ∧
     (stepExch (initExchange exampleRequest) (.inject exampleResponse)).settled =
       some (.ok exampleResponse) ∧
     stepExch (stepExch (initExchange exampleRequest) (.inject exampleResponse))
         (.inject exampleResponse) =
       stepExch (initExchange exampleRequest) (.inject exampleResponse) ∧
     (∀ (st : Exchange) (m2 : CorrelatedResponseDTO),
         ¬(jsTruthyStr m2.request_id = true ∧ st.reg = true ∧
           m2.request_id = st.data.request_id) →
         stepExch st (.inject m2) = st) ∧
     (runExch (stepExch (initExchange exampleRequest) (.inject exampleResponse))
         []).settled = some (.ok exampleResponse) ∧
     (runExch (stepExch (initExchange exampleRequest) (.inject exampleResponse))
         []).resolverRuns = 1) :=
  ⟨rfl, rfl, register_inject_once exampleRequest exampleResponse [] rfl rfl⟩

/-- Witness for claim C2 at concrete inputs. -/
theorem timeout_settles_once_witness :
    (initExchange exampleRequest).timerArmed = true ∧
    (initExchange exampleRequest).settled = none ∧
    ((stepExch (initExchange exampleRequest) .timer).settled =
       some (.error (InternalServerError
         ("Timeout waiting for HTTP response on " ++
          (initExchange exampleRequest).data.action))) ∧
     (runExch (stepExch (initExchange exampleRequest) .timer) []).settled =
       some (.error (InternalServerError
         ("Timeout waiting for HTTP response on " ++
          (initExchange exampleRequest).data.action))) ∧
     (stepExch (initExchange exampleRequest) .timer).reg =
       (initExchange exampleRequest).reg ∧
     (∀ u : Exchange, (stepExch u .timer).reg = u.reg) ∧
     (∀ u : Exchange, (stepExch u .handlerDone).reg = u.reg)) :=
  ⟨rfl, rfl, timeout_settles_once (initExchange exampleRequest) [] rfl rfl⟩

/-- Witness for claim C3 at concrete inputs. -/
theorem handler_error_path_witness :
    (runExch (initExchange exampleRequest) []).settled = none ∧
    ((stepExch (runExch (initExchange exampleRequest) [])
        (.handlerError (.plainError "boom"))).timerArmed = false ∧
     (stepExch (runExch (initExchange exampleRequest) [])
        (.handlerError (.plainError "boom"))).reg = false ∧
     (stepExch (runExch (initExchange exampleRequest) [])
        (.handlerError (.plainError "boom"))).settled =
       some (.error (.plainError "boom"))) :=
  ⟨rfl, handler_error_path exampleRequest [] (.plainError "boom") rfl⟩

/-- Witness for claim C4 at concrete inputs. -/
theorem dispatched_wire_status_200_witness :
    (handleWire exampleActions (some exampleRequest) exampleSettled =
       executeActionHandler exampleRequest exampleSettled ∧
     (handleWire exampleActions (some exampleRequest) exampleSettled).status = 200) ∧
    handleWire exampleActions none exampleSettled =
      { status := 400, body := .bare "Invalid action provided: undefined" } ∧
    handleWire exampleActions (some unknownRequest) exampleSettled =
      { status := 400,
        body := .bare ("Invalid action provided: " ++ unknownRequest.action) } ∧
    handleWire exampleActions (some deadRequest) exampleSettled =
      { status := 500,
        body := .bare ("Handler not defined for action: " ++ deadRequest.action) } :=
  ⟨(dispatched_wire_status_200 exampleActions exampleRequest exampleSettled).1 rfl,
   (dispatched_wire_status_200 exampleActions exampleRequest exampleSettled).2.1,
   (dispatched_wire_status_200 exampleActions unknownRequest exampleSettled).2.2.1 rfl,
   (dispatched_wire_status_200 exampleActions deadRequest exampleSettled).2.2.2 rfl⟩

/-- Witness for claim C6 at concrete inputs. -/
theorem dispatch_rejections_witness :
    handleHTTPRequest exampleActions none =
      .reject 400 "Invalid action provided: undefined" ∧
    handleHTTPRequest exampleActions (some unknownRequest) =
      .reject 400 ("Invalid action provided: " ++ unknownRequest.action) ∧
    handleHTTPRequest exampleActions (some deadRequest) =
      .reject 500 ("Handler not defined for action: " ++ deadRequest.action) ∧
    (∀ d2, handleHTTPRequest exampleActions none ≠ .dispatchTo d2) ∧
    (∀ d2, handleHTTPRequest exampleActions (some deadRequest) ≠ .dispatchTo d2) :=
  ⟨(dispatch_rejections exampleActions unknownRequest).1,
   (dispatch_rejections exampleActions unknownRequest).2.1 rfl,
   (dispatch_rejections exampleActions deadRequest).2.2.1 rfl,
   (dispatch_rejections exampleActions deadRequest).2.2.2.1,
   (dispatch_rejections exampleActions deadRequest).2.2.2.2 (by decide)⟩

/-- Witness for claim C7 at concrete inputs. -/
theorem send_validation_witness :
    noIdRequest.request_id = none ∧
    exampleSendable.contains noIdRequest.action = false ∧
    (send exampleSendable "fresh-1" noIdRequest exampleOptions).1.request_id =
      some "fresh-1" ∧
    (∃ msg, (send exampleSendable "fresh-1" noIdRequest exampleOptions).2 =
      .error (BadRequestError msg)) :=
  ⟨rfl, rfl,
   (send_validation exampleSendable "fresh-1" noIdRequest exampleOptions).1 rfl,
   (send_validation exampleSendable "fresh-1" noIdRequest exampleOptions).2
     (Or.inl rfl)⟩

/-- Witness for claim C8 at concrete inputs. -/
theorem init_port_binding_witness :
    init [] 0 = .ok none ∧
    init exampleActions 0 = .error (InternalServerError
      "HTTP transport needs a port in order to consume (receive) actions") ∧
    init exampleActions 8080 = .ok (some 8080) :=
  ⟨(init_port_binding [] 0).1 rfl,
   (init_port_binding exampleActions 0).2.1 (by decide) rfl,
   (init_port_binding exampleActions 8080).2.2 (by decide) (by decide)⟩

/-- Witness for claim C10 at concrete inputs. -/
theorem send_mutates_before_validation_witness :
    noIdRequest.request_id = none ∧
    exampleSendable.contains noIdRequest.action = false ∧
    ((send exampleSendable "fresh-1" noIdRequest exampleOptions).1 =
       { noIdRequest with request_id := some "fresh-1" } ∧
     (send exampleSendable "fresh-1" noIdRequest exampleOptions).1.request_id =
       some "fresh-1" ∧
     ∃ msg, (send exampleSendable "fresh-1" noIdRequest exampleOptions).2 =
       .error (BadRequestError msg)) :=
  ⟨rfl, rfl,
   send_mutates_before_validation exampleSendable "fresh-1" noIdRequest
     exampleOptions rfl (Or.inl rfl)⟩

end HTTPTransportAdapter
